import Mathlib

/-!
# recipient/client.go — the /recipients client of stripe-go

A shallow embedding of `src/recipient/client.go`.

* Go strings are Lean `String`s; `len(s)` is the UTF-8 byte length.
* `url.Values` (`map[string][]string`) is an association list with one entry per key,
  read through `Values.lookup` and extended by `Values.Add`.
* A pointer is modelled by `Option` of its pointee at the time it is passed on
  (`none` is the nil pointer).
* An `interface{}` value is an `Interface`: the untyped nil, a `*stripe.Recipient`
  (possibly a typed nil pointer) or a value of some other dynamic type.
* The declarations of package `stripe` that the file uses but does not define are
  parameters: the types in `Types`, the functions in `Env`, the backend in `Backend`.
* Every call that leaves the file is recorded, with its arguments, as an `Event`;
  a function of the file is a `Run`: the events it caused and how it ended
  (a returned value or a Go panic).
-/

set_option linter.dupNamespace false

namespace recipient

/-! ## Strings and `url.Values` -/

/-- Go's builtin `len` on a string: the number of bytes of its UTF-8 encoding. -/
def len (s : String) : Nat := s.utf8ByteSize

/-- Go's `strconv.FormatBool`. -/
def FormatBool (b : Bool) : String := if b then "true" else "false"

/-- Go's `url.Values`, a `map[string][]string`: one entry per key. -/
abbrev Values := List (String × List String)

/-- The map index `v[key]` with its presence bit: `none` when the key is absent. -/
def Values.lookup : Values → String → Option (List String)
  | [], _ => none
  | (k, vs) :: rest, key => if k = key then some vs else Values.lookup rest key

/-- Go's `func (v Values) Add(key, value string)`: `v[key] = append(v[key], value)`. -/
def Values.Add : Values → String → String → Values
  | [], key, value => [(key, [value])]
  | (k, vs) :: rest, key, value =>
    if k = key then (k, vs ++ [value]) :: rest else (k, vs) :: Values.Add rest key value

/-! ## The parts of package `stripe` used by the file -/

/-- The types of package `stripe` whose declarations lie outside the file, with the
zero values the file creates (`&stripe.Recipient{}`, the zero `ListMeta` of
`&recipientList{}`). -/
structure Types where
  /-- The embedded `stripe.Params` of `RecipientParams`. -/
  Params : Type
  /-- The embedded `stripe.ListParams` of `RecipientListParams`. -/
  ListParams : Type
  /-- The list metadata `stripe.ListMeta`. -/
  ListMeta : Type
  /-- The bank account parameters `stripe.BankAccountParams`. -/
  BankAccountParams : Type
  /-- The card parameters `stripe.CardParams`. -/
  CardParams : Type
  /-- The decoded resource `stripe.Recipient`. -/
  Recipient : Type
  /-- The values of Go's `error` interface other than nil. -/
  Error : Type
  /-- The generic list iterator `stripe.Iter`. -/
  Iter : Type
  /-- The value `stripe.Recipient{}`. -/
  zeroRecipient : Recipient
  /-- The value `stripe.ListMeta{}`. -/
  zeroListMeta : ListMeta

/-- The string type `stripe.RecipientType`. -/
abbrev RecipientType := String

/-- The constants of the file. -/
def Individual : RecipientType := "individual"

/-- See `Individual`. -/
def Corp : RecipientType := "corporation"

/-- The struct `stripe.RecipientParams`, with the fields the file reads. -/
structure RecipientParams (T : Types) where
  /-- The embedded `stripe.Params`. -/
  Params : T.Params
  Name : String
  /-- The field `Type`. -/
  Type_ : RecipientType
  TaxID : String
  Token : String
  Email : String
  Desc : String
  DefaultCard : String
  Bank : Option T.BankAccountParams
  Card : Option T.CardParams

/-- The struct `stripe.RecipientListParams`, with the fields the file reads. -/
structure RecipientListParams (T : Types) where
  /-- The embedded `stripe.ListParams`. -/
  ListParams : T.ListParams
  Verified : Bool

/-- A value of type `interface{}` as the file can meet it. -/
inductive Interface (T : Types) where
  /-- The nil interface value: no dynamic type. -/
  | nil
  /-- Dynamic type `*stripe.Recipient`; `none` is the typed nil pointer. -/
  | recipient (p : Option T.Recipient)
  /-- Any other dynamic type, by name. -/
  | other (dynamicType : String)

/-- The local type `recipientList` of `Client.List`. -/
structure recipientList (T : Types) where
  /-- The embedded `stripe.ListMeta`. -/
  ListMeta : T.ListMeta
  /-- The field `Values []*stripe.Recipient`, decoded from `data`. -/
  Values : List (Option T.Recipient)

/-- The value `recipientList{}`. -/
def recipientList.zero (T : Types) : recipientList T := ⟨T.zeroListMeta, []⟩

/-- What the last argument `v interface{}` of `Backend.Call` points to in this file. -/
inductive Target where
  /-- A `*stripe.Recipient`. -/
  | recipient
  /-- A `*recipientList`. -/
  | recipientList

/-- The pointee type of a `Target`. -/
def Target.pointee (T : Types) : Target → Type
  | .recipient => T.Recipient
  | .recipientList => recipient.recipientList T

/-- The interface `stripe.Backend`: `Call(method, path, key, body, v)` decodes the response
into `*v` and returns an error. The pointee after the call and the error are the result. -/
structure Backend (T : Types) where
  Call : String → String → String → Option Values → (t : Target) → t.pointee T →
    t.pointee T × Option T.Error

/-- The causes of a Go run-time panic in the file. -/
inductive Panic where
  /-- A field of a nil pointer is read. -/
  | nilDereference
  /-- A type assertion `x.(T)` fails. -/
  | interfaceConversion
  deriving DecidableEq, Repr

/-- A call that leaves the file, with its arguments. -/
inductive Event (T : Types) where
  /-- The call `params.Bank.AppendDetails(body)`. -/
  | bankAppendDetails (bank : T.BankAccountParams) (body : Values)
  /-- The call `params.Card.AppendDetails(body, creating)`. -/
  | cardAppendDetails (card : T.CardParams) (body : Values) (creating : Bool)
  /-- The call `params.AppendTo(body)` of a `RecipientParams`. -/
  | paramsAppendTo (params : T.Params) (body : Values)
  /-- The call `params.AppendTo(body)` of a `RecipientListParams`. -/
  | listParamsAppendTo (params : T.ListParams) (body : Values)
  /-- The call `c.B.Call(method, path, key, body, v)`. -/
  | backendCall (method path key : String) (body : Option Values)
  /-- The call `stripe.GetIter(lp, body, query)`. -/
  | getIter (lp : Option T.ListParams) (body : Option Values)
  /-- The call `i.Iter.Next()` of the generic iterator. -/
  | iterNext (it : T.Iter)

/-- A run of a function of the file: the calls it made, in order, and its end. -/
structure Run (T : Types) (α : Type) where
  events : List (Event T)
  outcome : Except Panic α

/-- A run that returns at once. -/
def Run.pure {T : Types} {α : Type} (a : α) : Run T α := ⟨[], .ok a⟩

/-- The run `y` after the calls `es` have been made. -/
def Run.after {T : Types} {α : Type} (es : List (Event T)) (y : Run T α) : Run T α :=
  ⟨es ++ y.events, y.outcome⟩

/-- Sequencing: a panic ends the run. -/
def Run.bind {T : Types} {α β : Type} (x : Run T α) (f : α → Run T β) : Run T β :=
  match x with
  | ⟨es, .error p⟩ => ⟨es, .error p⟩
  | ⟨es, .ok a⟩ => Run.after es (f a)

instance {T : Types} : Monad (Run T) where
  pure := Run.pure
  bind := Run.bind

/-- A run that panics. -/
def Run.panic {T : Types} {α : Type} (p : Panic) : Run T α := ⟨[], .error p⟩

/-- A run that makes one outside call and returns its result. -/
def Run.call {T : Types} {α : Type} (e : Event T) (a : α) : Run T α := ⟨[e], .ok a⟩

/-- Reading through a pointer: a nil pointer panics. -/
def Run.deref {T : Types} {α : Type} : Option α → Run T α
  | none => Run.panic .nilDereference
  | some a => Run.pure a

/-- The fetch function type `stripe.Query`:
`func(url.Values) ([]interface{}, stripe.ListMeta, error)`. -/
abbrev Query (T : Types) := Values → Run T (List (Interface T) × T.ListMeta × Option T.Error)

/-- The functions of package `stripe` whose bodies lie outside the file. Each one that
takes a `*url.Values` is given by the contents it leaves in the body. The receiver of
`ListParams.AppendTo` is read again by `Client.List` after the call, so that method also
gives the receiver as it leaves it; no other receiver is read after its call. -/
structure Env (T : Types) where
  /-- The method `(*stripe.BankAccountParams).AppendDetails(body)`. -/
  BankAppendDetails : T.BankAccountParams → Values → Values
  /-- The method `(*stripe.CardParams).AppendDetails(body, creating)`. -/
  CardAppendDetails : T.CardParams → Values → Bool → Values
  /-- The method `(*stripe.Params).AppendTo(body)`. -/
  ParamsAppendTo : T.Params → Values → Values
  /-- The method `(*stripe.ListParams).AppendTo(body)`: the body and the receiver
  afterwards. -/
  ListParamsAppendTo : T.ListParams → Values → Values × T.ListParams
  /-- The function `stripe.GetIter(lp, body, query)`. -/
  GetIter : Option T.ListParams → Option Values → Query T → T.Iter
  /-- The method `(*stripe.Iter).Next()`: the item, the error and the iterator afterwards. -/
  IterNext : T.Iter → (Interface T × Option T.Error) × T.Iter
  /-- The method `(*stripe.Iter).Stop()`. -/
  IterStop : T.Iter → Bool

/-- Client is used to invoke /recipients APIs. -/
structure Client (T : Types) where
  B : Backend T
  Key : String

/-- The statement `err := c.B.Call(method, path, key, body, v)`. -/
def Client.Call {T : Types} (c : Client T) (method path : String) (body : Option Values)
    (t : Target) (v : t.pointee T) : Run T (t.pointee T × Option T.Error) :=
  Run.call (.backendCall method path c.Key body) (c.B.Call method path c.Key body t v)

/-! ## The iterator wrapper -/

/-- Iter is a iterator for list responses. -/
structure Iter (T : Types) where
  Iter : T.Iter

/-- The type assertion `r.(*stripe.Recipient)` in its one-result form. -/
def assertRecipient {T : Types} : Interface T → Run T (Option T.Recipient)
  | .recipient p => Run.pure p
  | .nil => Run.panic .interfaceConversion
  | .other _ => Run.panic .interfaceConversion

/-- The method `func (i *Iter) Next() (*stripe.Recipient, error)`; the iterator after the call is
returned with the results. -/
def Iter.Next {T : Types} (env : Env T) (i : recipient.Iter T) :
    Run T ((Option T.Recipient × Option T.Error) × recipient.Iter T) := do
  let ((r, err), it) ← Run.call (.iterNext i.Iter) (env.IterNext i.Iter)
  if err.isSome then
    return ((none, err), ⟨it⟩)
  let p ← assertRecipient r
  return ((p, err), ⟨it⟩)

/-- The method `func (i *Iter) Stop() bool`. Stop returns true if there are no more
iterations to be performed. -/
def Iter.Stop {T : Types} (env : Env T) (i : recipient.Iter T) : Bool :=
  env.IterStop i.Iter

/-! ## The client -/

/-- The method `func (c Client) New(params *stripe.RecipientParams) (*stripe.Recipient, error)`.
New POSTs a new recipient. A conditional statement that leaves `body` alone when its
condition fails is written with that `else` branch. -/
def Client.New {T : Types} (env : Env T) (c : Client T) (params : Option (RecipientParams T)) :
    Run T (T.Recipient × Option T.Error) := do
  let p ← Run.deref params
  let mut body : Values := [("name", [p.Name]), ("type", [p.Type_])]
  body ← match p.Bank with
    | some bank => Run.call (.bankAppendDetails bank body) (env.BankAppendDetails bank body)
    | none => pure body
  body ← if len p.Token > 0 then pure (body.Add "card" p.Token)
    else match p.Card with
      | some card =>
        Run.call (.cardAppendDetails card body true) (env.CardAppendDetails card body true)
      | none => pure body
  body := if len p.TaxID > 0 then body.Add "tax_id" p.TaxID else body
  body := if len p.Email > 0 then body.Add "email" p.Email else body
  body := if len p.Desc > 0 then body.Add "description" p.Desc else body
  body ← Run.call (.paramsAppendTo p.Params body) (env.ParamsAppendTo p.Params body)
  let recipient := T.zeroRecipient
  let (recipient, err) ← c.Call "POST" "/recipients" (some body) .recipient recipient
  return (recipient, err)

/-- The block of `Client.Update` under `if params != nil`: the body it builds. -/
def Client.Update.body {T : Types} (env : Env T) (p : RecipientParams T) : Run T Values := do
  let mut body : Values := []
  body := if len p.Name > 0 then body.Add "name" p.Name else body
  body ← match p.Bank with
    | some bank => Run.call (.bankAppendDetails bank body) (env.BankAppendDetails bank body)
    | none => pure body
  body ← if len p.Token > 0 then pure (body.Add "card" p.Token)
    else match p.Card with
      | some card =>
        Run.call (.cardAppendDetails card body true) (env.CardAppendDetails card body true)
      | none => pure body
  body := if len p.TaxID > 0 then body.Add "tax_id" p.TaxID else body
  body := if len p.DefaultCard > 0 then body.Add "default_card" p.DefaultCard else body
  body := if len p.Email > 0 then body.Add "email" p.Email else body
  body := if len p.Desc > 0 then body.Add "description" p.Desc else body
  body ← Run.call (.paramsAppendTo p.Params body) (env.ParamsAppendTo p.Params body)
  return body

/-- The method `func (c Client) Update(id string, params *stripe.RecipientParams)
(*stripe.Recipient, error)`. Update updates a recipient's properties. -/
def Client.Update {T : Types} (env : Env T) (c : Client T) (id : String)
    (params : Option (RecipientParams T)) : Run T (T.Recipient × Option T.Error) := do
  let mut body : Option Values := none
  body ← match params with
    | some p => do
      let b ← Client.Update.body env p
      pure (some b)
    | none => pure body
  let recipient := T.zeroRecipient
  let (recipient, err) ← c.Call "POST" ("/recipients/" ++ id) body .recipient recipient
  return (recipient, err)

/-- The loop `ret := make([]interface{}, len(values)); for i, v := range values
{ ret[i] = v }` of the fetch function. -/
def Client.List.ret {T : Types} (values : List (Option T.Recipient)) : List (Interface T) :=
  values.enum.foldl (fun ret iv => ret.set iv.1 (Interface.recipient iv.2))
    (List.replicate values.length Interface.nil)

/-- The function literal that `Client.List` hands to `stripe.GetIter`. -/
def Client.List.query {T : Types} (c : Client T) : Query T := fun b => do
  let list := recipientList.zero T
  let (list, err) ← c.Call "GET" "/recipients" (some b) .recipientList list
  let ret := Client.List.ret list.Values
  return (ret, list.ListMeta, err)

/-- The method `func (c Client) List(params *stripe.RecipientListParams) *Iter`.
List returns a list of recipients. The pointer `lp = &params.ListParams` is taken after
`params.AppendTo(body)` and points into `params`: `stripe.GetIter` sees the field as
`AppendTo` left it. -/
def Client.List {T : Types} (env : Env T) (c : Client T)
    (params : Option (RecipientListParams T)) : Run T (recipient.Iter T) := do
  let mut body : Option Values := none
  let mut lp : Option T.ListParams := none
  (body, lp) ← match params with
    | some p => do
      let mut b : Values := []
      b := if p.Verified then b.Add "verified" (FormatBool true) else b
      let (b1, listParams) ←
        Run.call (.listParamsAppendTo p.ListParams b) (env.ListParamsAppendTo p.ListParams b)
      pure (some b1, some listParams)
    | none => pure (body, lp)
  let it ← Run.call (.getIter lp body) (env.GetIter lp body (Client.List.query c))
  return ⟨it⟩

/-! ## Projections of a run -/

/-- The arguments of the backend calls of a run, in order. -/
def backendCalls {T : Types} : List (Event T) → List (String × String × String × Option Values)
  | [] => []
  | .backendCall method path key body :: es => (method, path, key, body) :: backendCalls es
  | _ :: es => backendCalls es

/-- The arguments of the `params.Card.AppendDetails` calls of a run, in order. -/
def cardCalls {T : Types} : List (Event T) → List (T.CardParams × Values × Bool)
  | [] => []
  | .cardAppendDetails card body creating :: es => (card, body, creating) :: cardCalls es
  | _ :: es => cardCalls es

/-! ## The steps of `New` and `Update`, one by one

These name the intermediate bodies of the two functions; `Client.New_run` and
`Client.Update_run` below show that the functions compute exactly them. -/

/-- The statement `if len(value) > 0 { body.Add(key, value) }`. -/
def addNonEmpty (body : Values) (key value : String) : Values :=
  if value = "" then body else body.Add key value

/-- The body after `if params.Bank != nil { params.Bank.AppendDetails(body) }`. -/
def bankStep {T : Types} (env : Env T) (p : RecipientParams T) (body : Values) : Values :=
  match p.Bank with
  | none => body
  | some bank => env.BankAppendDetails bank body

/-- The calls made by `if params.Bank != nil { params.Bank.AppendDetails(body) }`. -/
def bankEvents {T : Types} (p : RecipientParams T) (body : Values) : List (Event T) :=
  match p.Bank with
  | none => []
  | some bank => [.bankAppendDetails bank body]

/-- The body after the token-or-card statement. -/
def cardStep {T : Types} (env : Env T) (p : RecipientParams T) (body : Values) : Values :=
  if p.Token = "" then
    match p.Card with
    | none => body
    | some card => env.CardAppendDetails card body true
  else body.Add "card" p.Token

/-- The calls made by the token-or-card statement. -/
def cardEvents {T : Types} (p : RecipientParams T) (body : Values) : List (Event T) :=
  if p.Token = "" then
    match p.Card with
    | none => []
    | some card => [.cardAppendDetails card body true]
  else []

/-- The body of `Client.New` when `params.AppendTo` is reached. -/
def Client.New.built {T : Types} (env : Env T) (p : RecipientParams T) : Values :=
  addNonEmpty (addNonEmpty (addNonEmpty
    (cardStep env p (bankStep env p [("name", [p.Name]), ("type", [p.Type_])]))
    "tax_id" p.TaxID) "email" p.Email) "description" p.Desc

/-- The body of `Client.Update` when `params.AppendTo` is reached. -/
def Client.Update.built {T : Types} (env : Env T) (p : RecipientParams T) : Values :=
  addNonEmpty (addNonEmpty (addNonEmpty (addNonEmpty
    (cardStep env p (bankStep env p (addNonEmpty [] "name" p.Name)))
    "tax_id" p.TaxID) "default_card" p.DefaultCard) "email" p.Email) "description" p.Desc

/-! ## Sample data -/

/-- Sample instance of the outside types: strings for parameters and errors, numbers
for recipients and iterator states. -/
@[reducible]
def sampleTypes : Types where
  Params := String
  ListParams := String
  ListMeta := Bool
  BankAccountParams := String
  CardParams := String
  Recipient := Nat
  Error := String
  Iter := Nat
  zeroRecipient := 0
  zeroListMeta := false

/-- Sample backend: a single recipient decodes to 42 without error; a list response
is decoded up to its second recipient and then fails. -/
def sampleBackend : Backend sampleTypes where
  Call := fun _ _ _ _ t _ =>
    match t with
    | .recipient => ((42 : Nat), (none : Option String))
    | .recipientList =>
      ((⟨true, [some 7, some 8]⟩ : recipientList sampleTypes), some "json: cannot unmarshal")

/-- Sample client over `sampleBackend`. -/
def sampleClient : Client sampleTypes := ⟨sampleBackend, "sk_test"⟩

/-- Sample generic iterator: state 0 delivers recipient 7, state 1 is exhausted
(nil item, nil error), any other state reports a failed fetch. -/
def sampleIterNext (it : Nat) : (Interface sampleTypes × Option String) × Nat :=
  match it with
  | 0 => ((Interface.recipient (some (7 : Nat)), none), 1)
  | 1 => ((Interface.nil, none), 1)
  | n + 2 => ((Interface.nil, some "fetch failed"), n + 2)

/-- Sample environment: the outside functions append one marker entry each;
`ListParams.AppendTo` caps a limit of 150 to 100, in the body and in its receiver. -/
def sampleEnv : Env sampleTypes where
  BankAppendDetails := fun bank body => body.Add "bank_account[account_number]" bank
  CardAppendDetails := fun card body _ => body.Add "card[number]" card
  ParamsAppendTo := fun params body => body.Add "expand[]" params
  ListParamsAppendTo := fun params body =>
    if params = "150" then (body.Add "limit" "100", "100") else (body.Add "limit" params, params)
  GetIter := fun _ _ _ => (0 : Nat)
  IterNext := sampleIterNext
  IterStop := fun it => it != 0

/-- Sample parameters with a token, a card and no bank account. -/
def sampleParams : RecipientParams sampleTypes where
  Params := "customer"
  Name := "Ann Lee"
  Type_ := Individual
  TaxID := ""
  Token := "tok_1"
  Email := "ann@example.com"
  Desc := ""
  DefaultCard := ""
  Bank := none
  Card := some "4242"

/-- Sample parameters with neither bank account nor card. -/
def plainParams : RecipientParams sampleTypes :=
  { sampleParams with Card := none }

/-- Sample parameters with a card and no token. -/
def cardParams : RecipientParams sampleTypes :=
  { sampleParams with Token := "" }

/-! ## The generic iterator as the spec describes it

The declaration of `stripe.Iter` is not among the sources; its `Next` and `Stop` are
the parameters `Env.IterNext` and `Env.IterStop`. What follows is the iterator of
sections 3 and 4.1 of the spec, used to exhibit an iterator state. -/

/-- Modelled from the spec: the per-page metadata `ListMeta` of section 3 (the
declaration of `stripe.ListMeta` is missing): "total count (optional), `has_more`
boolean". -/
structure SpecListMeta where
  count : Option Nat
  more : Bool

/-- Modelled from the spec: the state of `Iter` in section 3 (the declaration of
`stripe.Iter` is missing): "the current in-memory page (an ordered sequence of opaque
items), a cursor index into that page, the last fetch error (if any), the accumulated
`ListMeta`, and a reference to the fetch function", with the `Single` flag and the page
parameters of its `ListParams`. The rule that turns the parameters of one page into
those of the next is resource-specific (section 9) and a field. -/
structure SpecIter (ι ε : Type) where
  page : List ι
  index : Nat
  err : Option ε
  listMeta : SpecListMeta
  single : Bool
  pageParams : Values
  fetch : Values → List ι × SpecListMeta × Option ε
  advance : Values → List ι → Values

/-- Modelled from the spec: `Stop()` of section 4.1 (the body of `stripe.Iter.Stop` is
missing): true when a fetch error has occurred, or when the current page's remaining
items are exhausted and either no further pages exist or `Single` was requested. -/
def SpecIter.Stop {ι ε : Type} (it : SpecIter ι ε) : Bool :=
  it.err.isSome || (decide (it.page.length ≤ it.index) && (!it.listMeta.more || it.single))

/-- Modelled from the spec: `Next()` of section 4.1 (the body of `stripe.Iter.Next` is
missing). An earlier error is returned again. Otherwise the next item of the in-memory
page is returned. "If the current page is exhausted and more pages exist (per
`has_more` from the last fetch) and `Single` was not requested, it synchronously
fetches the next page before returning the next item. Returns an error if the
underlying fetch failed", with none of that page's items. Past exhaustion the item is
nil (`none`) and so is the error. -/
def SpecIter.Next {ι ε : Type} (it : SpecIter ι ε) : (Option ι × Option ε) × SpecIter ι ε :=
  match it.err with
  | some e => ((none, some e), it)
  | none =>
    if it.index < it.page.length then
      ((it.page[it.index]?, none), { it with index := it.index + 1 })
    else if it.listMeta.more && !it.single then
      match it.fetch (it.advance it.pageParams it.page) with
      | (_, _, some e) => ((none, some e), { it with err := some e })
      | (items, listMeta, none) =>
        ((items.head?, none),
          { it with
            page := items, index := 1, listMeta := listMeta,
            pageParams := it.advance it.pageParams it.page })
    else ((none, none), it)

/-- Sample instance of the outside types whose generic iterator is the iterator of the
spec over `*stripe.Recipient` items. -/
@[reducible]
def pagedTypes : Types where
  Params := String
  ListParams := String
  ListMeta := SpecListMeta
  BankAccountParams := String
  CardParams := String
  Recipient := Nat
  Error := String
  Iter := SpecIter (Option Nat) String
  zeroRecipient := 0
  zeroListMeta := ⟨none, false⟩

/-- Sample iterator state: a first page of one recipient has been consumed, the backend
announced more, and the fetch of the second page fails. -/
def secondPageFails : SpecIter (Option Nat) String where
  page := [some 7]
  index := 1
  err := none
  listMeta := ⟨some 2, true⟩
  single := false
  pageParams := [("limit", ["1"])]
  fetch := fun _ => ([], ⟨none, false⟩, some "fetch failed")
  advance := fun pageParams _ => pageParams.Add "starting_after" "7"

/-- Sample environment over `pagedTypes`: `Next` and `Stop` of the generic iterator are
those of the spec, an item taken from a page is a `*stripe.Recipient` and the missing
item is the nil interface; the other functions leave the body as it is, and
`stripe.GetIter` hands out `secondPageFails`. -/
def pagedEnv : Env pagedTypes where
  BankAppendDetails := fun _ body => body
  CardAppendDetails := fun _ body _ => body
  ParamsAppendTo := fun _ body => body
  ListParamsAppendTo := fun params body => (body, params)
  GetIter := fun _ _ _ => secondPageFails
  IterNext := fun it =>
    ((match (SpecIter.Next it).1.1 with
      | none => Interface.nil
      | some p => Interface.recipient p,
      (SpecIter.Next it).1.2), (SpecIter.Next it).2)
  IterStop := SpecIter.Stop

/-! ## Strings and `url.Values`: lemmas -/

theorem len_pos_iff (s : String) : 0 < len s ↔ s ≠ "" := by
  rcases s with ⟨cs⟩
  cases cs with
  | nil => simp [len, String.utf8ByteSize, String.utf8ByteSize.go]
  | cons c cs =>
    have := Char.utf8Size_pos c
    simp [len, String.utf8ByteSize, String.utf8ByteSize.go]
    constructor
    · intro _ h
      have h2 := congrArg String.data h
      simp at h2
    · intro _; omega

theorem Values.lookup_Add_self (v : Values) (key value : String) :
    (v.Add key value).lookup key = some ((v.lookup key).getD [] ++ [value]) := by
  induction v with
  | nil => simp [Values.Add, Values.lookup]
  | cons kv rest ih =>
    rcases kv with ⟨k, vs⟩
    by_cases h : k = key
    · simp [Values.Add, Values.lookup, h]
    · simp [Values.Add, Values.lookup, h, ih]

theorem Values.lookup_Add_of_ne (v : Values) (key value k : String) (h : key ≠ k) :
    (v.Add key value).lookup k = v.lookup k := by
  induction v with
  | nil => simp [Values.Add, Values.lookup, h]
  | cons kv rest ih =>
    rcases kv with ⟨k', vs⟩
    by_cases h' : k' = key
    · subst h'; simp [Values.Add, Values.lookup, h]
    · by_cases h'' : k' = k
      · subst h''; simp [Values.Add, Values.lookup, h']
      · simp [Values.Add, Values.lookup, h', h'', ih]

theorem lookup_addNonEmpty_self (v : Values) (key value : String) :
    (addNonEmpty v key value).lookup key =
      if value = "" then v.lookup key else some ((v.lookup key).getD [] ++ [value]) := by
  unfold addNonEmpty
  split
  · rfl
  · exact Values.lookup_Add_self v key value

theorem lookup_addNonEmpty_of_ne (v : Values) (key value k : String) (h : key ≠ k) :
    (addNonEmpty v key value).lookup k = v.lookup k := by
  unfold addNonEmpty
  split
  · rfl
  · exact Values.lookup_Add_of_ne v key value k h

/-- The range loop that fills a slice of the right length writes the image of each
element at its own index. -/
theorem foldl_set_enumFrom {α β : Type} (f : α → β) :
    ∀ (vs : List α) (k : Nat) (acc : List β), acc.length = k + vs.length →
      (vs.enumFrom k).foldl (fun ret iv => ret.set iv.1 (f iv.2)) acc =
        acc.take k ++ vs.map f := by
  intro vs
  induction vs with
  | nil =>
    intro k acc h
    simp at h
    simp [List.take_of_length_le (Nat.le_of_eq h)]
  | cons v vs ih =>
    intro k acc h
    have hk : k < acc.length := by simp at h; omega
    simp only [List.enumFrom_cons, List.foldl_cons, List.map_cons]
    rw [ih (k + 1) (acc.set k (f v)) (by simp at h ⊢; omega)]
    rw [List.take_succ]
    have h1 : (acc.set k (f v)).take k = acc.take k := by
      rw [List.set_take, List.set_eq_of_length_le (by simp)]
    simp [hk, h1]

theorem List_ret_eq_map {T : Types} (values : List (Option T.Recipient)) :
    Client.List.ret values = values.map Interface.recipient := by
  unfold Client.List.ret List.enum
  rw [foldl_set_enumFrom Interface.recipient values 0 _ (by simp)]
  simp

/-! ## Sequencing lemmas -/

theorem Run.bind_eq {T : Types} {α β : Type} (x : Run T α) (f : α → Run T β) :
    x >>= f = Run.bind x f := rfl

theorem Run.pure_eq {T : Types} {α : Type} (a : α) : (Pure.pure a : Run T α) = Run.pure a := rfl

theorem Run.bind_ok {T : Types} {α β : Type} (es : List (Event T)) (a : α)
    (f : α → Run T β) :
    Run.bind ⟨es, .ok a⟩ f = Run.after es (f a) := rfl

theorem Run.bind_error {T : Types} {α β : Type} (es : List (Event T)) (p : Panic)
    (f : α → Run T β) : Run.bind ⟨es, .error p⟩ f = ⟨es, .error p⟩ := rfl

theorem Run.after_mk {T : Types} {α : Type} (es es' : List (Event T)) (o : Except Panic α) :
    Run.after es ⟨es', o⟩ = ⟨es ++ es', o⟩ := rfl

/-! ## `New` and `Update` step by step -/

theorem Client.New_run {T : Types} (env : Env T) (c : Client T) (p : RecipientParams T) :
    Client.New env c (some p) =
      ⟨bankEvents p [("name", [p.Name]), ("type", [p.Type_])] ++
        cardEvents p (bankStep env p [("name", [p.Name]), ("type", [p.Type_])]) ++
        [.paramsAppendTo p.Params (Client.New.built env p),
         .backendCall "POST" "/recipients" c.Key
           (some (env.ParamsAppendTo p.Params (Client.New.built env p)))],
       .ok (c.B.Call "POST" "/recipients" c.Key
         (some (env.ParamsAppendTo p.Params (Client.New.built env p)))
         .recipient T.zeroRecipient)⟩ := by
  obtain ⟨P, name, ty, tax, tok, email, desc, dc, bank, card⟩ := p
  cases bank <;> cases card <;> by_cases h1 : tok = "" <;>
    simp [Client.New, Client.New.built, Run.deref, len_pos_iff, Run.bind_eq, Run.bind_ok,
      Run.after_mk, Run.pure_eq, Run.pure, Run.call, Client.Call, bankStep, bankEvents,
      cardStep, cardEvents, addNonEmpty, h1]

theorem Client.Update_body_run {T : Types} (env : Env T) (p : RecipientParams T) :
    Client.Update.body env p =
      ⟨bankEvents p (addNonEmpty [] "name" p.Name) ++
        cardEvents p (bankStep env p (addNonEmpty [] "name" p.Name)) ++
        [.paramsAppendTo p.Params (Client.Update.built env p)],
       .ok (env.ParamsAppendTo p.Params (Client.Update.built env p))⟩ := by
  obtain ⟨P, name, ty, tax, tok, email, desc, dc, bank, card⟩ := p
  cases bank <;> cases card <;> by_cases h1 : tok = "" <;>
    simp [Client.Update.body, Client.Update.built, len_pos_iff, Run.bind_eq, Run.bind_ok,
      Run.after_mk, Run.pure_eq, Run.pure, Run.call, bankStep, bankEvents,
      cardStep, cardEvents, addNonEmpty, h1]

theorem Client.Update_run {T : Types} (env : Env T) (c : Client T) (id : String)
    (p : RecipientParams T) :
    Client.Update env c id (some p) =
      ⟨bankEvents p (addNonEmpty [] "name" p.Name) ++
        cardEvents p (bankStep env p (addNonEmpty [] "name" p.Name)) ++
        [.paramsAppendTo p.Params (Client.Update.built env p),
         .backendCall "POST" ("/recipients/" ++ id) c.Key
           (some (env.ParamsAppendTo p.Params (Client.Update.built env p)))],
       .ok (c.B.Call "POST" ("/recipients/" ++ id) c.Key
         (some (env.ParamsAppendTo p.Params (Client.Update.built env p)))
         .recipient T.zeroRecipient)⟩ := by
  simp [Client.Update, Client.Update_body_run, Run.bind_eq, Run.bind_ok, Run.after_mk,
    Run.pure_eq, Run.pure, Run.call, Client.Call]

theorem Client.Update_nil_run {T : Types} (env : Env T) (c : Client T) (id : String) :
    Client.Update env c id none =
      ⟨[.backendCall "POST" ("/recipients/" ++ id) c.Key none],
       .ok (c.B.Call "POST" ("/recipients/" ++ id) c.Key none .recipient T.zeroRecipient)⟩ := by
  simp [Client.Update, Run.bind_eq, Run.bind_ok, Run.after_mk, Run.pure_eq, Run.pure, Run.call,
    Client.Call]

theorem cardCalls_append {T : Types} (es es' : List (Event T)) :
    cardCalls (es ++ es') = cardCalls es ++ cardCalls es' := by
  induction es with
  | nil => rfl
  | cons e es ih => cases e <;> simp [cardCalls, ih]

/-! ## The iterator wrapper: results -/

/-- C1, at the input the claim names: the generic iterator hands back the nil interface
and a nil error, and the wrapper ends in the panic of its type assertion. -/
theorem Iter_Next_nil_item_panics {T : Types} (env : Env T) (i : recipient.Iter T)
    (it : T.Iter) (h : env.IterNext i.Iter = ((Interface.nil, none), it)) :
    (Iter.Next env i).outcome = .error Panic.interfaceConversion := by
  simp [Iter.Next, Run.bind_eq, Run.bind_ok, Run.bind_error, Run.after_mk, Run.call, h,
    Run.pure_eq, Run.pure, assertRecipient, Run.panic]

/-- C2: a non-nil error of the generic iterator is returned as it is, with a nil
recipient, whatever the item. -/
theorem Iter_Next_error_verbatim {T : Types} (env : Env T) (i : recipient.Iter T)
    (r : Interface T) (e : T.Error) (it : T.Iter)
    (h : env.IterNext i.Iter = ((r, some e), it)) :
    (Iter.Next env i).outcome = .ok ((none, some e), ⟨it⟩) := by
  simp [Iter.Next, Run.bind_eq, Run.bind_ok, Run.after_mk, Run.call, h, Run.pure_eq, Run.pure]

/-- C3 as stated fails: in the sample state `secondPageFails` the wrapper's `Stop()` is
false, and the `Next` issued then has to fetch the second page, which fails: the
generic iterator delivers the nil item with the error of the fetch, and the wrapper
returns a nil recipient and that error. -/
theorem Iter_Next_error_while_not_stopped :
    Iter.Stop pagedEnv ⟨secondPageFails⟩ = false ∧
    (pagedEnv.IterNext secondPageFails).1 = (Interface.nil, some "fetch failed") ∧
    (Iter.Next pagedEnv ⟨secondPageFails⟩).outcome =
      .ok ((none, some "fetch failed"),
        ⟨{ secondPageFails with err := some "fetch failed" }⟩) :=
  ⟨rfl, rfl, rfl⟩

/-- C3, amended: a non-nil `*stripe.Recipient` item with a nil error is returned as it
is, with a nil error. -/
theorem Iter_Next_item_delivered {T : Types} (env : Env T) (i : recipient.Iter T)
    (r : T.Recipient) (it : T.Iter)
    (h : env.IterNext i.Iter = ((Interface.recipient (some r), none), it)) :
    (Iter.Next env i).outcome = .ok ((some r, none), ⟨it⟩) := by
  simp [Iter.Next, Run.bind_eq, Run.bind_ok, Run.after_mk, Run.call, h, Run.pure_eq, Run.pure,
    assertRecipient]

/-- Witness of `Iter_Next_nil_item_panics`: the sample iterator in its exhausted state. -/
theorem Iter_Next_nil_item_panics_witness :
    sampleEnv.IterNext 1 = ((Interface.nil, none), 1) ∧
    (Iter.Next sampleEnv ⟨1⟩).outcome = .error Panic.interfaceConversion :=
  ⟨rfl, Iter_Next_nil_item_panics sampleEnv ⟨1⟩ 1 rfl⟩

/-- Witness of `Iter_Next_error_verbatim`: the sample iterator after a failed fetch. -/
theorem Iter_Next_error_verbatim_witness :
    sampleEnv.IterNext 2 = ((Interface.nil, some "fetch failed"), 2) ∧
    (Iter.Next sampleEnv ⟨2⟩).outcome = .ok ((none, some "fetch failed"), ⟨2⟩) :=
  ⟨rfl, Iter_Next_error_verbatim sampleEnv ⟨2⟩ Interface.nil "fetch failed" 2 rfl⟩

/-- Witness of `Iter_Next_item_delivered`: the sample iterator with one item left. -/
theorem Iter_Next_item_delivered_witness :
    sampleEnv.IterNext 0 = ((Interface.recipient (some 7), none), 1) ∧
    (Iter.Next sampleEnv ⟨0⟩).outcome = .ok ((some 7, none), ⟨1⟩) :=
  ⟨rfl, Iter_Next_item_delivered sampleEnv ⟨0⟩ 7 1 rfl⟩

/-! ## The requests of `New`, `Update` and `List` -/

/-- C5: with non-nil params that carry neither bank account nor card, `Client.New` calls
`params.AppendTo` and then the backend, once, with "POST", "/recipients" and the
client's key, and returns what that call produced. The body `b0` that reaches
`params.AppendTo` has name and type always, card, tax_id, email and description exactly
when the field is non-empty, each with the field's value, and no other key. -/
theorem Client_New_request {T : Types} (env : Env T) (c : Client T) (p : RecipientParams T)
    (hb : p.Bank = none) (hc : p.Card = none) :
    ∃ b0 : Values,
      (Client.New env c (some p)).events =
        [Event.paramsAppendTo p.Params b0,
         Event.backendCall "POST" "/recipients" c.Key (some (env.ParamsAppendTo p.Params b0))] ∧
      (Client.New env c (some p)).outcome =
        .ok (c.B.Call "POST" "/recipients" c.Key (some (env.ParamsAppendTo p.Params b0))
          Target.recipient T.zeroRecipient) ∧
      b0.lookup "name" = some [p.Name] ∧
      b0.lookup "type" = some [p.Type_] ∧
      b0.lookup "card" = (if p.Token = "" then none else some [p.Token]) ∧
      b0.lookup "tax_id" = (if p.TaxID = "" then none else some [p.TaxID]) ∧
      b0.lookup "email" = (if p.Email = "" then none else some [p.Email]) ∧
      b0.lookup "description" = (if p.Desc = "" then none else some [p.Desc]) ∧
      ∀ k : String, k ∉ ["name", "type", "card", "tax_id", "email", "description"] →
        b0.lookup k = none := by
  refine ⟨Client.New.built env p, ?_, ?_, ?_⟩
  · rw [Client.New_run]; simp [bankEvents, cardEvents, hb, hc]
  · rw [Client.New_run]
  · by_cases h1 : p.Token = "" <;>
      simp [Client.New.built, bankStep, cardStep, hb, hc, h1, lookup_addNonEmpty_self,
        lookup_addNonEmpty_of_ne, Values.lookup_Add_self, Values.lookup_Add_of_ne,
        Values.lookup] <;>
      intro k h1 h2 h3 h4 h5 h6 <;>
      simp [lookup_addNonEmpty_of_ne, Values.lookup_Add_of_ne, Values.lookup, Ne.symm h1,
        Ne.symm h2, Ne.symm h3, Ne.symm h4, Ne.symm h5, Ne.symm h6]

/-- Witness of `Client_New_request` at `plainParams`. -/
theorem Client_New_request_witness :
    plainParams.Bank = none ∧ plainParams.Card = none ∧
    ∃ b0 : Values,
      (Client.New sampleEnv sampleClient (some plainParams)).events =
        [Event.paramsAppendTo "customer" b0,
         Event.backendCall "POST" "/recipients" "sk_test" (some (b0.Add "expand[]" "customer"))] ∧
      b0.lookup "name" = some ["Ann Lee"] ∧
      b0.lookup "card" = some ["tok_1"] ∧
      b0.lookup "tax_id" = none :=
  ⟨rfl, rfl,
    (Client_New_request sampleEnv sampleClient plainParams rfl rfl).imp
      (fun _ h => ⟨h.1, h.2.2.1, h.2.2.2.2.1, h.2.2.2.2.2.1⟩)⟩

/-- C6: `Client.Update` makes one backend call, with "POST", "/recipients/" ++ id and the
client's key, and returns what that call produced. With nil params no other call is
made and the body is nil. With params that carry neither bank account nor card, the
body `b0` that reaches `params.AppendTo` has each of name, tax_id, default_card, email
and description exactly when the field is non-empty, with the field's value, and never
has type. -/
theorem Client_Update_request {T : Types} (env : Env T) (c : Client T) (id : String)
    (params : Option (RecipientParams T)) :
    (∃ body : Option Values,
      backendCalls (Client.Update env c id params).events =
        [("POST", "/recipients/" ++ id, c.Key, body)] ∧
      (Client.Update env c id params).outcome =
        .ok (c.B.Call "POST" ("/recipients/" ++ id) c.Key body Target.recipient
          T.zeroRecipient)) ∧
    (params = none →
      (Client.Update env c id params).events =
        [Event.backendCall "POST" ("/recipients/" ++ id) c.Key none]) ∧
    (∀ p : RecipientParams T, params = some p → p.Bank = none → p.Card = none →
      ∃ b0 : Values,
        (Client.Update env c id params).events =
          [Event.paramsAppendTo p.Params b0,
           Event.backendCall "POST" ("/recipients/" ++ id) c.Key
             (some (env.ParamsAppendTo p.Params b0))] ∧
        b0.lookup "name" = (if p.Name = "" then none else some [p.Name]) ∧
        b0.lookup "tax_id" = (if p.TaxID = "" then none else some [p.TaxID]) ∧
        b0.lookup "default_card" = (if p.DefaultCard = "" then none else some [p.DefaultCard]) ∧
        b0.lookup "email" = (if p.Email = "" then none else some [p.Email]) ∧
        b0.lookup "description" = (if p.Desc = "" then none else some [p.Desc]) ∧
        b0.lookup "type" = none) := by
  refine ⟨?_, ?_, ?_⟩
  · cases params with
    | none => exact ⟨none, by simp [Client.Update_nil_run, backendCalls]⟩
    | some p =>
      refine ⟨some (env.ParamsAppendTo p.Params (Client.Update.built env p)), ?_, ?_⟩
      · rw [Client.Update_run]
        cases hb : p.Bank <;> cases hc : p.Card <;> by_cases h1 : p.Token = "" <;>
          simp [backendCalls, bankEvents, cardEvents, hb, hc, h1]
      · rw [Client.Update_run]
  · intro h; subst h; rw [Client.Update_nil_run]
  · intro p h hb hc
    subst h
    refine ⟨Client.Update.built env p, ?_, ?_⟩
    · rw [Client.Update_run]; simp [bankEvents, cardEvents, hb, hc]
    · by_cases h0 : p.Name = "" <;> by_cases h1 : p.Token = "" <;>
        simp [Client.Update.built, bankStep, cardStep, hb, hc, h0, h1, lookup_addNonEmpty_self,
          lookup_addNonEmpty_of_ne, Values.lookup_Add_self, Values.lookup_Add_of_ne,
          Values.lookup]

/-- Witness of `Client_Update_request`: the nil-params request and the request built
from `plainParams`. -/
theorem Client_Update_request_witness :
    (Client.Update sampleEnv sampleClient "rp_1" none).events =
      [Event.backendCall "POST" ("/recipients/" ++ "rp_1") "sk_test" none] ∧
    ∃ b0 : Values,
      (Client.Update sampleEnv sampleClient "rp_1" (some plainParams)).events =
        [Event.paramsAppendTo "customer" b0,
         Event.backendCall "POST" ("/recipients/" ++ "rp_1") "sk_test"
           (some (b0.Add "expand[]" "customer"))] ∧
      b0.lookup "name" = some ["Ann Lee"] ∧
      b0.lookup "type" = none :=
  ⟨(Client_Update_request sampleEnv sampleClient "rp_1" none).2.1 rfl,
    ((Client_Update_request sampleEnv sampleClient "rp_1" (some plainParams)).2.2
      plainParams rfl rfl rfl).imp (fun _ h => ⟨h.1, h.2.1, h.2.2.2.2.2.2⟩)⟩

/-- C7: `Client.List` with nil params calls `stripe.GetIter` with a nil `*ListParams` and
a nil body and makes no other call, so params is not read. With non-nil params it calls
`params.AppendTo` and then `stripe.GetIter` with the pointer to `params.ListParams`,
whose pointee is by then the field as `AppendTo` left it, and with a non-nil body; the
body `b0` that reaches `params.AppendTo` has the key verified, with the single value
"true", exactly when `params.Verified` is true, and no other key. -/
theorem Client_List_request {T : Types} (env : Env T) (c : Client T) :
    Client.List env c none =
      ⟨[Event.getIter none none], .ok ⟨env.GetIter none none (Client.List.query c)⟩⟩ ∧
    ∀ p : RecipientListParams T, ∃ b0 : Values,
      Client.List env c (some p) =
        ⟨[Event.listParamsAppendTo p.ListParams b0,
          Event.getIter (some (env.ListParamsAppendTo p.ListParams b0).2)
            (some (env.ListParamsAppendTo p.ListParams b0).1)],
         .ok ⟨env.GetIter (some (env.ListParamsAppendTo p.ListParams b0).2)
           (some (env.ListParamsAppendTo p.ListParams b0).1) (Client.List.query c)⟩⟩ ∧
      b0.lookup "verified" = (if p.Verified then some ["true"] else none) ∧
      ∀ k : String, k ≠ "verified" → b0.lookup k = none := by
  refine ⟨?_, ?_⟩
  · simp [Client.List, Run.bind_eq, Run.bind_ok, Run.after_mk, Run.pure_eq, Run.pure, Run.call]
  · intro p
    refine ⟨if p.Verified then Values.Add [] "verified" (FormatBool true) else [], ?_, ?_, ?_⟩
    · simp [Client.List, Run.bind_eq, Run.bind_ok, Run.after_mk, Run.pure_eq, Run.pure, Run.call]
    · cases p.Verified <;> simp [Values.Add, Values.lookup, FormatBool]
    · intro k hk
      cases p.Verified <;> simp [Values.Add, Values.lookup, Ne.symm hk]

/-- Witness of `Client_List_request`: the sample `AppendTo` caps the limit 150 to 100 in
its receiver, and `stripe.GetIter` is handed the capped `ListParams`. -/
theorem Client_List_request_witness :
    ∃ b0 : Values,
      Client.List sampleEnv sampleClient (some ⟨"150", true⟩) =
        ⟨[Event.listParamsAppendTo "150" b0,
          Event.getIter (some "100") (some (b0.Add "limit" "100"))],
         .ok ⟨sampleEnv.GetIter (some "100") (some (b0.Add "limit" "100"))
           (Client.List.query sampleClient)⟩⟩ ∧
      b0.lookup "verified" = some ["true"] ∧
      ∀ k : String, k ≠ "verified" → b0.lookup k = none :=
  (Client_List_request sampleEnv sampleClient).2 ⟨"150", true⟩

/-! ## Token before card -/

theorem New_built_lookup_card {T : Types} (env : Env T) (p : RecipientParams T) :
    (Client.New.built env p).lookup "card" =
      (cardStep env p (bankStep env p [("name", [p.Name]), ("type", [p.Type_])])).lookup
        "card" := by
  simp [Client.New.built, lookup_addNonEmpty_of_ne]

theorem Update_built_lookup_card {T : Types} (env : Env T) (p : RecipientParams T) :
    (Client.Update.built env p).lookup "card" =
      (cardStep env p (bankStep env p (addNonEmpty [] "name" p.Name))).lookup "card" := by
  simp [Client.Update.built, lookup_addNonEmpty_of_ne]

/-- The token-or-card statement, seen from the calls of a run whose events are the bank
call, the card call, `params.AppendTo` on `b0` and calls `rest` that are no card call. -/
theorem token_before_card {T : Types} (env : Env T) (p : RecipientParams T)
    (init b0 : Values) (rest : List (Event T))
    (hinit : init.lookup "card" = none)
    (hb0 : b0.lookup "card" = (cardStep env p (bankStep env p init)).lookup "card")
    (hrest : cardCalls rest = []) (events : List (Event T))
    (hev : events = bankEvents p init ++ cardEvents p (bankStep env p init) ++
      (Event.paramsAppendTo p.Params b0 :: rest)) :
    (p.Token ≠ "" →
      cardCalls events = [] ∧
      ∃ (b : Values) (pre : List String),
        Event.paramsAppendTo p.Params b ∈ events ∧
        b.lookup "card" = some (pre ++ [p.Token]) ∧
        (p.Bank = none → pre = []) ∧
        ∀ bank : T.BankAccountParams, p.Bank = some bank →
          ∃ body : Values, Event.bankAppendDetails bank body ∈ events ∧
            pre = ((env.BankAppendDetails bank body).lookup "card").getD []) ∧
    (p.Token = "" → ∀ card : T.CardParams, p.Card = some card →
      ∃ body : Values, cardCalls events = [(card, body, true)]) ∧
    (p.Token = "" → p.Card = none →
      cardCalls events = [] ∧
      ∃ b : Values,
        Event.paramsAppendTo p.Params b ∈ events ∧
        (p.Bank = none → b.lookup "card" = none) ∧
        ∀ bank : T.BankAccountParams, p.Bank = some bank →
          ∃ body : Values, Event.bankAppendDetails bank body ∈ events ∧
            b.lookup "card" = (env.BankAppendDetails bank body).lookup "card") := by
  subst hev
  refine ⟨fun ht => ⟨?_, b0, ((bankStep env p init).lookup "card").getD [], ?_, ?_, ?_, ?_⟩,
    fun ht card hc => ⟨bankStep env p init, ?_⟩,
    fun ht hc => ⟨?_, b0, ?_, ?_, ?_⟩⟩
  · cases hb : p.Bank <;>
      simp [cardCalls_append, cardCalls, bankEvents, cardEvents, hb, ht, hrest]
  · simp
  · rw [hb0]; simp [cardStep, ht, Values.lookup_Add_self]
  · intro hb; simp [bankStep, hb, hinit]
  · intro bank hb
    exact ⟨init, by simp [bankEvents, hb], by simp [bankStep, hb]⟩
  · cases hb : p.Bank <;>
      simp [cardCalls_append, cardCalls, bankEvents, cardEvents, hb, hc, ht, hrest]
  · cases hb : p.Bank <;>
      simp [cardCalls_append, cardCalls, bankEvents, cardEvents, hb, hc, ht, hrest]
  · simp
  · intro hb; rw [hb0]; simp [cardStep, bankStep, hb, hc, ht, hinit]
  · intro bank hb
    exact ⟨init, by simp [bankEvents, hb], by rw [hb0]; simp [cardStep, bankStep, hb, hc, ht]⟩

/-- C9: in a run of `Client.New` or of `Client.Update` on non-nil params, a non-empty
token is added to the body under card (after whatever the bank account step left
there, so alone when there is no bank account) and `params.Card.AppendDetails` is not
called; with an empty token and a non-nil card `params.Card.AppendDetails(body, true)`
is called, once; with an empty token and a nil card it is not called and the card
entry of the body is what the bank account step left (none without bank account). -/
theorem card_token_precedence {T : Types} (env : Env T) (c : Client T) (id : String)
    (p : RecipientParams T) (run : Run T (T.Recipient × Option T.Error))
    (hrun : run = Client.New env c (some p) ∨ run = Client.Update env c id (some p)) :
    (p.Token ≠ "" →
      cardCalls run.events = [] ∧
      ∃ (b : Values) (pre : List String),
        Event.paramsAppendTo p.Params b ∈ run.events ∧
        b.lookup "card" = some (pre ++ [p.Token]) ∧
        (p.Bank = none → pre = []) ∧
        ∀ bank : T.BankAccountParams, p.Bank = some bank →
          ∃ body : Values, Event.bankAppendDetails bank body ∈ run.events ∧
            pre = ((env.BankAppendDetails bank body).lookup "card").getD []) ∧
    (p.Token = "" → ∀ card : T.CardParams, p.Card = some card →
      ∃ body : Values, cardCalls run.events = [(card, body, true)]) ∧
    (p.Token = "" → p.Card = none →
      cardCalls run.events = [] ∧
      ∃ b : Values,
        Event.paramsAppendTo p.Params b ∈ run.events ∧
        (p.Bank = none → b.lookup "card" = none) ∧
        ∀ bank : T.BankAccountParams, p.Bank = some bank →
          ∃ body : Values, Event.bankAppendDetails bank body ∈ run.events ∧
            b.lookup "card" = (env.BankAppendDetails bank body).lookup "card") := by
  rcases hrun with h | h
  · exact token_before_card env p [("name", [p.Name]), ("type", [p.Type_])]
      (Client.New.built env p)
      [Event.backendCall "POST" "/recipients" c.Key
        (some (env.ParamsAppendTo p.Params (Client.New.built env p)))]
      (by simp [Values.lookup]) (New_built_lookup_card env p)
      (by simp [cardCalls]) run.events (by rw [h, Client.New_run])
  · exact token_before_card env p (addNonEmpty [] "name" p.Name)
      (Client.Update.built env p)
      [Event.backendCall "POST" ("/recipients/" ++ id) c.Key
        (some (env.ParamsAppendTo p.Params (Client.Update.built env p)))]
      (by simp [lookup_addNonEmpty_of_ne, Values.lookup]) (Update_built_lookup_card env p)
      (by simp [cardCalls]) run.events (by rw [h, Client.Update_run])

/-- Witness of `card_token_precedence`: `sampleParams` has a token and a card, and
`Client.New` sends the token alone; `cardParams` has the card only, and
`Client.Update` calls `params.Card.AppendDetails` once. -/
theorem card_token_precedence_witness :
    (sampleParams.Token ≠ "" ∧
      cardCalls (Client.New sampleEnv sampleClient (some sampleParams)).events = []) ∧
    (cardParams.Token = "" ∧ cardParams.Card = some "4242" ∧
      ∃ body : Values,
        cardCalls (Client.Update sampleEnv sampleClient "rp_1" (some cardParams)).events =
          [("4242", body, true)]) :=
  ⟨⟨by decide,
     ((card_token_precedence sampleEnv sampleClient "rp_1" sampleParams _ (Or.inl rfl)).1
       (by decide)).1⟩,
   ⟨rfl, rfl,
     (card_token_precedence sampleEnv sampleClient "rp_1" cardParams _ (Or.inr rfl)).2.1
       rfl "4242" rfl⟩⟩

/-! ## The fetch function of `List` -/

theorem Client.List.query_run {T : Types} (c : Client T) (b : Values)
    (list : recipientList T) (err : Option T.Error)
    (h : c.B.Call "GET" "/recipients" c.Key (some b) Target.recipientList
      (recipientList.zero T) = (list, err)) :
    Client.List.query c b =
      ⟨[Event.backendCall "GET" "/recipients" c.Key (some b)],
       .ok (list.Values.map Interface.recipient, list.ListMeta, err)⟩ := by
  simp [Client.List.query, Run.bind_eq, Run.bind_ok, Run.after_mk, Run.pure_eq, Run.pure,
    Run.call, Client.Call, h, List_ret_eq_map]

/-- C4: whatever page `list` the backend decodes (with or without an error), the fetch
function returns an item sequence with `len(list.Values)` elements whose i-th element
is the i-th decoded recipient: the order is kept and nothing is dropped or added. -/
theorem List_query_items_in_order {T : Types} (c : Client T) (b : Values)
    (list : recipientList T) (err : Option T.Error)
    (h : c.B.Call "GET" "/recipients" c.Key (some b) Target.recipientList
      (recipientList.zero T) = (list, err)) :
    ∃ items : List (Interface T),
      (Client.List.query c b).outcome = .ok (items, list.ListMeta, err) ∧
      items.length = list.Values.length ∧
      (∀ i : Nat, items[i]? = (list.Values[i]?).map Interface.recipient) ∧
      items = list.Values.map Interface.recipient := by
  refine ⟨list.Values.map Interface.recipient, ?_, ?_, ?_, rfl⟩
  · rw [Client.List.query_run c b list err h]
  · simp
  · intro i; simp

/-- Witness of `List_query_items_in_order` at the sample backend. -/
theorem List_query_items_in_order_witness :
    ∃ items : List (Interface sampleTypes),
      (Client.List.query sampleClient [("limit", ["5"])]).outcome =
        .ok (items, true, some "json: cannot unmarshal") ∧
      items.length = 2 ∧
      (∀ i : Nat, items[i]? = ([some 7, some 8][i]?).map Interface.recipient) ∧
      items = [Interface.recipient (some 7), Interface.recipient (some 8)] :=
  List_query_items_in_order sampleClient [("limit", ["5"])] ⟨true, [some 7, some 8]⟩
    (some "json: cannot unmarshal") rfl

/-- C8 as stated fails: the sample backend reports an error after it has decoded two
recipients, and the fetch function returns both of them together with the error. -/
theorem List_query_keeps_decoded_items_on_error :
    (sampleClient.B.Call "GET" "/recipients" sampleClient.Key (some []) Target.recipientList
      (recipientList.zero sampleTypes)).2 = some "json: cannot unmarshal" ∧
    (Client.List.query sampleClient []).outcome =
      .ok ([Interface.recipient (some 7), Interface.recipient (some 8)], true,
        some "json: cannot unmarshal") :=
  ⟨rfl, by rw [Client.List.query_run sampleClient [] ⟨true, [some 7, some 8]⟩ _ rfl]; rfl⟩

/-- C8, amended: when the backend call fails with `e`, the fetch function returns `e`
unchanged together with one item for each recipient the backend left in `Values`, in
order; the item sequence is empty exactly when `Values` is empty. -/
theorem List_query_on_error {T : Types} (c : Client T) (b : Values)
    (list : recipientList T) (e : T.Error)
    (h : c.B.Call "GET" "/recipients" c.Key (some b) Target.recipientList
      (recipientList.zero T) = (list, some e)) :
    ∃ items : List (Interface T),
      (Client.List.query c b).outcome = .ok (items, list.ListMeta, some e) ∧
      items = list.Values.map Interface.recipient ∧
      (items = [] ↔ list.Values = []) := by
  refine ⟨list.Values.map Interface.recipient, ?_, rfl, ?_⟩
  · rw [Client.List.query_run c b list (some e) h]
  · simp

/-- Witness of `List_query_on_error` at the sample backend. -/
theorem List_query_on_error_witness :
    ∃ items : List (Interface sampleTypes),
      (Client.List.query sampleClient []).outcome =
        .ok (items, true, some "json: cannot unmarshal") ∧
      items = [Interface.recipient (some 7), Interface.recipient (some 8)] ∧
      (items = [] ↔ [some 7, some 8] = ([] : List (Option Nat))) :=
  List_query_on_error sampleClient [] ⟨true, [some 7, some 8]⟩ "json: cannot unmarshal" rfl

/-- C10: the fetch function returns normally, and every element `x` of its item sequence
is a `*stripe.Recipient` (the pointer `p` may be nil, the interface value is not), so
the type assertion on `x` succeeds, and `Iter.Next` returns `p` without panic whenever
the generic iterator hands `x` back with a nil error. -/
theorem List_query_items_are_recipients {T : Types} (env : Env T) (c : Client T)
    (b : Values) :
    ∃ (items : List (Interface T)) (listMeta : T.ListMeta) (err : Option T.Error),
      (Client.List.query c b).outcome = .ok (items, listMeta, err) ∧
      ∀ x : Interface T, x ∈ items →
        ∃ p : Option T.Recipient,
          x = Interface.recipient p ∧
          (assertRecipient x : Run T (Option T.Recipient)) = ⟨[], .ok p⟩ ∧
          ∀ (i : recipient.Iter T) (it : T.Iter),
            env.IterNext i.Iter = ((x, none), it) →
            (Iter.Next env i).outcome = .ok ((p, none), ⟨it⟩) := by
  obtain ⟨list, err, h⟩ : ∃ list err, c.B.Call "GET" "/recipients" c.Key (some b)
      Target.recipientList (recipientList.zero T) = (list, err) := ⟨_, _, rfl⟩
  refine ⟨list.Values.map Interface.recipient, list.ListMeta, err, ?_, ?_⟩
  · rw [Client.List.query_run c b list err h]
  · intro x hx
    obtain ⟨p, _, rfl⟩ := List.mem_map.mp hx
    refine ⟨p, rfl, rfl, ?_⟩
    intro i it hi
    simp [Iter.Next, Run.bind_eq, Run.bind_ok, Run.after_mk, Run.call, hi, Run.pure_eq,
      Run.pure, assertRecipient]

/-- Witness of `List_query_items_are_recipients` at the sample backend: both items of
its page pass the type assertion. -/
theorem List_query_items_are_recipients_witness :
    ∃ (items : List (Interface sampleTypes)) (listMeta : Bool) (err : Option String),
      (Client.List.query sampleClient []).outcome = .ok (items, listMeta, err) ∧
      ∀ x : Interface sampleTypes, x ∈ items →
        ∃ p : Option Nat,
          x = Interface.recipient p ∧
          (assertRecipient x : Run sampleTypes (Option Nat)) = ⟨[], .ok p⟩ ∧
          ∀ (i : recipient.Iter sampleTypes) (it : Nat),
            sampleEnv.IterNext i.Iter = ((x, none), it) →
            (Iter.Next sampleEnv i).outcome = .ok ((p, none), ⟨it⟩) :=
  List_query_items_are_recipients sampleEnv sampleClient []

end recipient
